import Mathlib

/-!
Verification of the fireplexity multi-layer retrieval engine.

This file gives a shallow embedding of the core modules of the repository:

* the multi-layer search orchestrator and its helpers
  (analyzeQuerySimple, detectQueryAspects, generateSubQueries,
  evaluateCoverageSimple, deduplicateSources, multiLayerSearch);
* the integrated search merge step of the scraper module
  (integratedSearch and its web-result merge with the description fallback);
* the search provider client (search with the Brave provider and the
  DuckDuckGo fallback).

JavaScript strings are modelled as lists of characters; JavaScript
substring search, template interpolation of undefined, truthiness of
optional strings, regex alternation splitting and whitespace splitting are
modelled by explicit executable functions.  Network collaborators
(integrated search as seen by the orchestrator, the provider HTTP calls,
the page scraper, the URL parser of the runtime) are parameters of the
embedded functions, so theorems quantify over every possible behaviour of
those collaborators.
-/

namespace Fireplexity

/-- JavaScript strings, modelled as lists of characters. -/
abbrev Str : Type := List Char

/-- Turn a Lean string literal into the character-list model. -/
def str (s : String) : Str := s.toList

/-- Model of JavaScript toLowerCase (character-wise; identity on Japanese). -/
def lower (s : Str) : Str := s.map Char.toLower

/-- Model of JavaScript hay.includes(needle): substring test. -/
def strIncludes (hay needle : Str) : Bool :=
  match hay with
  | [] => needle.isEmpty
  | _ :: rest => needle.isPrefixOf hay || strIncludes rest needle

/-- True when any of the alternatives occurs as a substring: models a
regex test of an alternation of literals. -/
def containsAny (hay : Str) (alts : List Str) : Bool :=
  alts.any (fun a => strIncludes hay a)

/-- JavaScript truthiness of an optional string: undefined and the empty
string are falsy. -/
def truthy : Option Str → Bool
  | none => false
  | some s => !s.isEmpty

/-- JavaScript a or-else b on optional strings, as written in the source
with the two-vertical-bar operator: the left value when truthy, else the
right value. -/
def jsOr (a b : Option Str) : Option Str :=
  if truthy a then a else b

/-- A whitespace character, as in a JavaScript regex character class. -/
def isWsChar (c : Char) : Bool :=
  c = ' ' || c = '\t' || c = '\n' || c = '\r' || c = '\x0b' || c = '\x0c'

/-- Model of JavaScript String.trim. -/
def trim (s : Str) : Str :=
  ((s.dropWhile isWsChar).reverse.dropWhile isWsChar).reverse

/-- Model of s.split on a regex that matches one or more characters
satisfying p: pieces between maximal separator runs, with empty pieces at
the boundaries exactly as in JavaScript. -/
def splitRuns (p : Char → Bool) : Str → List Str
  | [] => [[]]
  | c :: rest =>
    if p c then
      match rest with
      | [] => [[], []]
      | d :: _ =>
        if p d then splitRuns p rest
        else [] :: splitRuns p rest
    else
      match splitRuns p rest with
      | [] => [[c]]
      | t :: ts => (c :: t) :: ts

/-- Fuel-driven scan counting non-overlapping matches of a literal
alternation, leftmost match first, alternatives tried in order: models
(s.match(regex-g) or empty).length.  The fuel is the string length, which
bounds the number of scan steps. -/
def countMatchesAux (alts : List Str) : Nat → Str → Nat
  | 0, _ => 0
  | _, [] => 0
  | fuel + 1, s@(_ :: rest) =>
    match alts.find? (fun a => !a.isEmpty && a.isPrefixOf s) with
    | some a => 1 + countMatchesAux alts fuel (s.drop a.length)
    | none => countMatchesAux alts fuel rest

/-- Count of regex-alternation matches in a string. -/
def countMatches (alts : List Str) (s : Str) : Nat :=
  countMatchesAux alts s.length s

/-- Fuel-driven scan splitting a string on a literal alternation matched
case-insensitively, keeping the original characters of the pieces: models
s.split of an alternation regex with the ignore-case flag. -/
def splitAltsAux (alts : List Str) : Nat → Str → Str → List Str
  | _, [], acc => [acc.reverse]
  | 0, s, acc => [acc.reverse ++ s]
  | fuel + 1, s@(c :: rest), acc =>
    match alts.find? (fun a => !a.isEmpty && (s.take a.length).map Char.toLower == a) with
    | some a => acc.reverse :: splitAltsAux alts fuel (s.drop a.length) []
    | none => splitAltsAux alts fuel rest (c :: acc)

/-- Split a string on a case-insensitive literal alternation. -/
def splitAlts (alts : List Str) (s : Str) : List Str :=
  splitAltsAux alts s.length s []

/-- Model of JavaScript array.join(sep) on strings. -/
def joinWith (sep : Str) : List Str → Str
  | [] => []
  | [b] => b
  | b :: c :: rest => b ++ sep ++ joinWith sep (c :: rest)

/-- Model of JavaScript s.replace(pat, repl) with a string pattern: only
the first occurrence is replaced. -/
def replaceFirst : Str → Str → Str → Str
  | [], _, _ => []
  | s@(c :: rest), pat, repl =>
    if pat.isPrefixOf s then repl ++ s.drop pat.length
    else c :: replaceFirst rest pat repl

/-! ## Search provider client (src/lib/scraper/search.ts) -/

/-- WebSearchResult of search.ts. -/
structure WebSearchResult where
  url : Str
  title : Str
  description : Option Str := none
deriving DecidableEq, BEq

/-- NewsSearchResult of search.ts. -/
structure NewsSearchResult where
  url : Str
  title : Str
  description : Option Str := none
  source : Option Str := none
  date : Option Str := none
  imageUrl : Option Str := none
deriving DecidableEq, BEq

/-- ImageSearchResult of search.ts. -/
structure ImageSearchResult where
  url : Str
  title : Str
  imageUrl : Str
  source : Option Str := none
  width : Option Nat := none
  height : Option Nat := none
deriving DecidableEq, BEq

/-- SearchResponse of search.ts: the result lists are optional fields of
the interface. -/
structure SearchResponse where
  web : Option (List WebSearchResult) := none
  news : Option (List NewsSearchResult) := none
  images : Option (List ImageSearchResult) := none
deriving DecidableEq, BEq

/-- Options of the search function of search.ts. -/
structure SearchOptions where
  numResults : Nat := 6
  includeNews : Bool := true
  includeImages : Bool := true
  braveApiKey : Option Str := none

/-- Outcome of one network call of a provider: the fetch threw, the
response had a non-ok HTTP status, or a payload was parsed. -/
inductive FetchOutcome (α : Type) where
  | thrown
  | httpError (status : Nat)
  | payload (data : α)

/-- An outcome that did not produce a payload. -/
def FetchOutcome.isFail : FetchOutcome α → Bool
  | .thrown => true
  | .httpError _ => true
  | .payload _ => false

/-- One item of data.web.results of the Brave web endpoint. -/
structure BraveWebItem where
  url : Str
  title : Str
  description : Option Str := none

/-- One item of data.results of the Brave news endpoint (the age field of
the payload becomes the date of the result). -/
structure BraveNewsItem where
  url : Str
  title : Str
  description : Option Str := none
  source : Option Str := none
  age : Option Str := none

/-- One item of data.results of the Brave image endpoint. -/
structure BraveImageItem where
  url : Str
  title : Option Str := none
  thumbnailSrc : Option Str := none
  source : Option Str := none
  width : Option Nat := none
  height : Option Nat := none

/-- braveWebSearch of search.ts: any thrown error or non-ok status is
caught and yields the empty list; a payload without web.results also
yields the empty list; otherwise the items are converted and capped at
numResults. -/
def braveWebSearch (outcome : FetchOutcome (Option (List BraveWebItem)))
    (numResults : Nat) : List WebSearchResult :=
  match outcome with
  | .thrown => []
  | .httpError _ => []
  | .payload none => []
  | .payload (some items) =>
    (items.map fun it =>
      ({ url := it.url, title := it.title, description := it.description } :
        WebSearchResult)).take numResults

/-- braveNewsSearch of search.ts. -/
def braveNewsSearch (outcome : FetchOutcome (Option (List BraveNewsItem)))
    (numResults : Nat) : List NewsSearchResult :=
  match outcome with
  | .thrown => []
  | .httpError _ => []
  | .payload none => []
  | .payload (some items) =>
    (items.map fun it =>
      ({ url := it.url, title := it.title, description := it.description,
         source := it.source, date := it.age } : NewsSearchResult)).take numResults

/-- braveImageSearch of search.ts: the title falls back to Untitled and
the image URL falls back to the page URL when the thumbnail is missing. -/
def braveImageSearch (outcome : FetchOutcome (Option (List BraveImageItem)))
    (numResults : Nat) : List ImageSearchResult :=
  match outcome with
  | .thrown => []
  | .httpError _ => []
  | .payload none => []
  | .payload (some items) =>
    (items.map fun it =>
      ({ url := it.url,
         title := if truthy it.title then it.title.getD [] else str "Untitled",
         imageUrl := if truthy it.thumbnailSrc then it.thumbnailSrc.getD [] else it.url,
         source := it.source, width := it.width, height := it.height } :
        ImageSearchResult)).take numResults

/-- One result block of the DuckDuckGo HTML page, as read by the DOM
selectors of duckDuckGoSearch: the href of the title link, the text of the
title link and the text of the snippet, each possibly absent. -/
structure DDGBlock where
  rawUrl : Option Str := none
  title : Option Str := none
  description : Option Str := none

/-- The parsed DuckDuckGo HTML page: whether the anti-bot modal is present
and the result blocks. -/
structure DDGPage where
  antibot : Bool := false
  blocks : List DDGBlock := []

/-- The result extraction loop of duckDuckGoSearch: trim the raw values,
require a URL and a title, clean the URL, skip URLs already seen and URLs
not starting with http. -/
def ddgExtract (cleanUrlFn : Str → Str) : List Str → List DDGBlock → List WebSearchResult
  | _, [] => []
  | seen, b :: rest =>
    match b.rawUrl.map trim, b.title.map trim with
    | some rawUrl, some title =>
      if rawUrl.isEmpty || title.isEmpty then ddgExtract cleanUrlFn seen rest
      else
        let url := cleanUrlFn rawUrl
        if !seen.contains url && (str "http").isPrefixOf url then
          { url := url, title := title, description := b.description.map trim } ::
            ddgExtract cleanUrlFn (url :: seen) rest
        else ddgExtract cleanUrlFn seen rest
    | _, _ => ddgExtract cleanUrlFn seen rest

/-- duckDuckGoSearch of search.ts: throws on a fetch error, a non-ok
status or the anti-bot modal, otherwise extracts and caps the results.
cleanUrlFn models the cleanUrl helper, whose URL parsing and percent
decoding are runtime built-ins (cleanUrl itself never throws: it catches
parse errors internally). -/
def duckDuckGoSearch (cleanUrlFn : Str → Str) (outcome : FetchOutcome DDGPage)
    (numResults : Nat) : Except Str (List WebSearchResult) :=
  match outcome with
  | .thrown => .error (str "fetch failed")
  | .httpError _ => .error (str "DuckDuckGo search failed")
  | .payload page =>
    if page.antibot then .error (str "blocked")
    else .ok ((ddgExtract cleanUrlFn [] page.blocks).take numResults)

/-- The collaborator outcomes one call of search can observe: one outcome
per provider endpoint, plus the URL-cleaning built-in. -/
structure SearchOracles where
  braveWeb : FetchOutcome (Option (List BraveWebItem))
  braveNews : FetchOutcome (Option (List BraveNewsItem))
  braveImages : FetchOutcome (Option (List BraveImageItem))
  ddg : FetchOutcome DDGPage
  cleanUrlFn : Str → Str

/-- The DuckDuckGo call of search fails: fetch threw, non-ok status, or
the anti-bot modal was detected. -/
def ddgFails (outcome : FetchOutcome DDGPage) : Bool :=
  match outcome with
  | .thrown => true
  | .httpError _ => true
  | .payload page => page.antibot

/-- search of search.ts (lines 262 to 310): prefers the Brave provider
when a key is configured, each Brave endpoint absorbing its own errors;
otherwise falls back to DuckDuckGo, whose thrown errors are caught and
converted to an all-empty response.  The function is total: no error
escapes its boundary. -/
def search (o : SearchOracles) (query : Str) (options : SearchOptions) :
    SearchResponse :=
  match options.braveApiKey with
  | some _ =>
    let webResults := braveWebSearch o.braveWeb options.numResults
    let newsResults := if options.includeNews then braveNewsSearch o.braveNews 5 else []
    let imageResults := if options.includeImages then braveImageSearch o.braveImages 6 else []
    { web := some webResults, news := some newsResults, images := some imageResults }
  | none =>
    match duckDuckGoSearch o.cleanUrlFn o.ddg options.numResults with
    | .ok webResults => { web := some webResults, news := some [], images := some [] }
    | .error _ => { web := some [], news := some [], images := some [] }

/-! ## Integrated search (src/lib/scraper/scrape.ts, integratedSearch at
lines 493 to 628, the variant with the description fallback) -/

/-- ScrapeResult of scrape.ts. -/
structure ScrapeResult where
  url : Str
  title : Str
  description : Option Str := none
  content : Option Str := none
  markdown : Option Str := none
  favicon : Option Str := none
  ogImage : Option Str := none
  siteName : Option Str := none
deriving DecidableEq, BEq

/-- One web entry of IntegratedSearchResult. -/
structure ISWebItem where
  url : Str
  title : Str
  description : Option Str := none
  markdown : Option Str := none
  content : Option Str := none
  favicon : Option Str := none
  image : Option Str := none
  siteName : Option Str := none
deriving DecidableEq, BEq

/-- One news entry of IntegratedSearchResult. -/
structure ISNewsItem where
  url : Str
  title : Str
  description : Option Str := none
  date : Option Str := none
  source : Option Str := none
  imageUrl : Option Str := none
deriving DecidableEq, BEq

/-- One image entry of IntegratedSearchResult. -/
structure ISImageItem where
  url : Str
  title : Str
  imageUrl : Str
  source : Option Str := none
  width : Option Nat := none
  height : Option Nat := none
deriving DecidableEq, BEq

/-- IntegratedSearchResult of scrape.ts. -/
structure IntegratedSearchResult where
  web : List ISWebItem := []
  news : List ISNewsItem := []
  images : List ISImageItem := []
deriving DecidableEq, BEq

/-- Options of integratedSearch. -/
structure ISOptions where
  numResults : Nat := 6
  includeNews : Bool := true
  includeImages : Bool := true
  scrapeContent : Bool := true
  braveApiKey : Option Str := none

/-- The options integratedSearch passes to the search provider client. -/
def providerOptions (opts : ISOptions) : SearchOptions :=
  { numResults := opts.numResults, includeNews := opts.includeNews,
    includeImages := opts.includeImages, braveApiKey := opts.braveApiKey }

/-- The hostname of a URL with a leading www. removed, the pattern of
scrape.ts: new URL(url).hostname.replace(www-dot, empty), with the
unknown fallback when URL parsing throws.  urlHost models the runtime URL
parser: none means the constructor threw. -/
def hostnameStripWww (urlHost : Str → Option Str) (url : Str) : Str :=
  match urlHost url with
  | some h => replaceFirst h (str "www.") []
  | none => str "unknown"

/-- hasScrapedContent of the merge step: the fetch produced a markdown of
more than 50 characters or a content of more than 50 characters (a falsy
empty string short-circuits exactly as a length of 0 does). -/
def hasScrapedContent (scraped : Option ScrapeResult) : Bool :=
  (match scraped.bind (fun s => s.markdown) with
   | some md => md.length > 50
   | none => false) ||
  (match scraped.bind (fun s => s.content) with
   | some c => c.length > 50
   | none => false)

/-- The merge of one provider web result with its scrape result
(scrape.ts lines 544 to 580): prefer the scraped fields; when the scrape
produced at most 50 characters of markdown and of content and the provider
description is truthy, synthesize the fallback markdown from the provider
title and description and use the provider description as content. -/
def mergeWebResult (urlHost : Str → Option Str) (scrapedResults : List ScrapeResult)
    (searchResult : WebSearchResult) : ISWebItem :=
  let scraped := scrapedResults.find? (fun s => s.url == searchResult.url)
  let siteName :=
    if truthy (scraped.bind (fun s => s.siteName)) then
      (scraped.bind (fun s => s.siteName)).getD []
    else hostnameStripWww urlHost searchResult.url
  let fallbackFires := !hasScrapedContent scraped && truthy searchResult.description
  { url := searchResult.url,
    title := (jsOr (scraped.map (fun s => s.title)) (some searchResult.title)).getD [],
    description := jsOr (scraped.bind (fun s => s.description)) searchResult.description,
    markdown :=
      if fallbackFires then
        some (str "# " ++ searchResult.title ++ str "\n\n" ++ searchResult.description.getD [])
      else scraped.bind (fun s => s.markdown),
    content :=
      if fallbackFires then searchResult.description
      else scraped.bind (fun s => s.content),
    favicon := scraped.bind (fun s => s.favicon),
    image := scraped.bind (fun s => s.ogImage),
    siteName := some siteName }

/-- The web result shape when scrapeContent is false (scrape.ts lines 581
to 600): description fallback applied immediately, no fetch. -/
def noScrapeWebResult (urlHost : Str → Option Str) (r : WebSearchResult) : ISWebItem :=
  { url := r.url,
    title := r.title,
    description := r.description,
    markdown :=
      if truthy r.description then
        some (str "# " ++ r.title ++ str "\n\n" ++ r.description.getD [])
      else none,
    content := r.description,
    siteName := some (hostnameStripWww urlHost r.url) }

/-- integratedSearch of scrape.ts (lines 493 to 628): run the provider
search, then, only when scrapeContent is true and the web list is
non-empty, scrape all web URLs (scrapeFn models the scrapeUrlsParallel or
scrapeUrls collaborator, which settles every URL and never throws) and
merge each provider result with its scrape; news and images are converted
field by field. -/
def integratedSearch (searchProv : Str → SearchOptions → SearchResponse)
    (scrapeFn : List Str → List ScrapeResult) (urlHost : Str → Option Str)
    (query : Str) (opts : ISOptions) : IntegratedSearchResult :=
  let searchResults := searchProv query (providerOptions opts)
  let webList := searchResults.web.getD []
  let webResultsWithContent :=
    if webList.isEmpty then []
    else if opts.scrapeContent then
      let scrapedResults := scrapeFn (webList.map (fun r => r.url))
      webList.map (mergeWebResult urlHost scrapedResults)
    else
      webList.map (noScrapeWebResult urlHost)
  { web := webResultsWithContent,
    news := (searchResults.news.getD []).map (fun r =>
      { url := r.url, title := r.title, description := r.description,
        date := r.date, source := r.source, imageUrl := r.imageUrl }),
    images := (searchResults.images.getD []).map (fun r =>
      { url := r.url, title := r.title, imageUrl := r.imageUrl,
        source := r.source, width := r.width, height := r.height }) }

/-! ## Multi-layer search (the multi-layer-search module) -/

/-- QueryIntent. -/
inductive QueryIntent where
  | factual | comparison | howto | opinion | current_events | technical | comprehensive
deriving DecidableEq

/-- QueryComplexity. -/
inductive QueryComplexity where
  | simple | medium | complex
deriving DecidableEq

/-- QueryAnalysis. -/
structure QueryAnalysis where
  intent : QueryIntent
  complexity : QueryComplexity
  suggestedDepth : Nat
  aspects : List Str
  keywords : List Str
deriving DecidableEq

/-- SourceInfo. -/
structure SourceInfo where
  url : Str
  title : Str
  description : Option Str := none
  content : Option Str := none
  markdown : Option Str := none
  favicon : Option Str := none
  image : Option Str := none
  siteName : Option Str := none
  layer : Nat
deriving DecidableEq, BEq

/-- NewsInfo. -/
structure NewsInfo where
  url : Str
  title : Str
  description : Option Str := none
  publishedDate : Option Str := none
  source : Option Str := none
  image : Option Str := none
  layer : Nat
deriving DecidableEq, BEq

/-- One entry of the imageResults list of MultiLayerSearchResult. -/
structure ImageInfo where
  url : Str
  title : Str
  thumbnail : Option Str := none
  source : Option Str := none
  width : Option Nat := none
  height : Option Nat := none
deriving DecidableEq, BEq

/-- LayerResult. -/
structure LayerResult where
  layer : Nat
  query : Str
  sources : List SourceInfo
  newsResults : List NewsInfo
  coverage : ℚ
  gaps : List Str

/-- MultiLayerSearchResult. -/
structure MultiLayerSearchResult where
  layers : List LayerResult
  allSources : List SourceInfo
  allNews : List NewsInfo
  imageResults : List ImageInfo
  totalSearches : Nat
  finalCoverage : ℚ

/-- MultiLayerSearchOptions with the defaults of multiLayerSearch (the
analyzeQuery and evaluateCoverage overrides of the interface are never
read by multiLayerSearch and are omitted). -/
structure MultiLayerSearchOptions where
  maxLayers : Nat := 2
  minCoverage : ℚ := 0.7
  numResultsPerLayer : Nat := 4
  braveApiKey : Option Str := none

/-- detectQueryAspects: the fixed rule table mapping query markers and the
intent to the aspect list, in rule order. -/
def detectQueryAspects (query : Str) (intent : QueryIntent) : List Str :=
  let lq := lower query
  (if containsAny lq [str "とは", str "何", str "what"] then [str "definition"] else []) ++
  (if containsAny lq [str "なぜ", str "理由", str "why"] then [str "reason"] else []) ++
  (if containsAny lq [str "どのように", str "方法", str "how"] then [str "method"] else []) ++
  (if containsAny lq [str "いつ", str "日時", str "when"] then [str "timing"] else []) ++
  (if containsAny lq [str "どこ", str "場所", str "where"] then [str "location"] else []) ++
  (if containsAny lq [str "誰", str "who"] then [str "person"] else []) ++
  (match intent with
   | .comparison => [str "similarities", str "differences", str "pros_cons"]
   | .howto => [str "steps", str "requirements", str "tips"]
   | .technical => [str "implementation", str "examples", str "best_practices"]
   | .opinion => [str "reviews", str "recommendations", str "ratings"]
   | .current_events => [str "latest_news", str "timeline", str "impact"]
   | _ => [])

/-- The stop-phrase list of the keyword extraction. -/
def stopPhrases : List Str :=
  [str "について", str "とは", str "ですか", str "ください", str "ありますか"]

/-- Separator class of the keyword split regex. -/
def isKwSep (c : Char) : Bool :=
  isWsChar c || c = '、' || c = '。' || c = '！' || c = '？'

/-- The suggested-depth rule of analyzeQuerySimple: 3 for complex queries
and comparison or comprehensive intents, 2 for medium queries and
technical or howto intents, else 1. -/
def suggestedDepthFor (complexity : QueryComplexity) (intent : QueryIntent) : Nat :=
  if complexity = .complex || intent = .comparison || intent = .comprehensive then 3
  else if complexity = .medium || intent = .technical || intent = .howto then 2
  else 1

/-- analyzeQuerySimple: the deterministic query analysis of the
multi-layer-search module. -/
def analyzeQuerySimple (query : Str) : QueryAnalysis :=
  let lowerQuery := lower query
  let intent : QueryIntent :=
    if strIncludes lowerQuery (str "比較") || strIncludes lowerQuery (str "違い") ||
        strIncludes lowerQuery (str "vs") then .comparison
    else if strIncludes lowerQuery (str "方法") || strIncludes lowerQuery (str "やり方") ||
        strIncludes lowerQuery (str "how") then .howto
    else if strIncludes lowerQuery (str "最新") || strIncludes lowerQuery (str "ニュース") ||
        strIncludes lowerQuery (str "2024") || strIncludes lowerQuery (str "2025") then .current_events
    else if strIncludes lowerQuery (str "レビュー") || strIncludes lowerQuery (str "おすすめ") ||
        strIncludes lowerQuery (str "評価") then .opinion
    else if strIncludes lowerQuery (str "実装") || strIncludes lowerQuery (str "コード") ||
        strIncludes lowerQuery (str "アルゴリズム") then .technical
    else .factual
  let wordCount := (splitRuns isWsChar query).length
  let hasMultipleConcepts :=
    2 ≤ countMatches [str "と", str "や", str "および", str "または", str "、"] query
  let hasQuestionMarker :=
    containsAny query [str "なぜ", str "どのように", str "何が", str "どう"]
  let complexity : QueryComplexity :=
    if wordCount > 15 || hasMultipleConcepts || (hasQuestionMarker && wordCount > 8) then .complex
    else if wordCount > 8 || hasMultipleConcepts then .medium
    else .simple
  let suggestedDepth : Nat := suggestedDepthFor complexity intent
  let keywords :=
    ((splitRuns isKwSep query).filter (fun w => w.length > 2)).filter
      (fun w => !stopPhrases.contains w)
  { intent := intent, complexity := complexity, suggestedDepth := suggestedDepth,
    aspects := detectQueryAspects query intent, keywords := keywords }

/-- JavaScript template interpolation of an array index access: an
out-of-range access is undefined and stringifies to the text undefined. -/
def jsAt (l : List Str) (i : Nat) : Str := l.getD i (str "undefined")

/-- generateSubQueries: gap-driven sub-query proposals for the next layer,
truncated to at most 3. -/
def generateSubQueries (originalQuery : Str) (analysis : QueryAnalysis)
    (existingSources : List SourceInfo) (layer : Nat) : List Str :=
  let keywords := analysis.keywords
  let layer1Queries : List Str :=
    if layer = 1 then
      (if 2 ≤ keywords.length then
        [jsAt keywords 0 ++ str " " ++ jsAt keywords 1 ++ str " 詳細",
         jsAt keywords 0 ++ str " 具体例 事例"]
       else []) ++
      (match analysis.intent with
       | .comparison =>
         let parts := splitAlts [str "と", str "vs", str "versus"] originalQuery
         if 2 ≤ parts.length then
           [trim (parts.getD 0 []) ++ str " メリット デメリット",
            trim (parts.getD 1 []) ++ str " メリット デメリット"]
         else []
       | .howto =>
         [jsAt keywords 0 ++ str " 手順 ステップ", jsAt keywords 0 ++ str " 初心者 入門"]
       | .technical =>
         [jsAt keywords 0 ++ str " 実装 サンプルコード", jsAt keywords 0 ++ str " ベストプラクティス"]
       | .current_events =>
         [jsAt keywords 0 ++ str " 最新ニュース 2025"]
       | _ =>
         [jsAt keywords 0 ++ str " 解説 わかりやすく"])
    else []
  let layer2Queries : List Str :=
    if layer = 2 then
      [jsAt keywords 0 ++ str " 専門家 見解", jsAt keywords 0 ++ str " 最新研究 論文"] ++
      (if !(existingSources.any (fun s => strIncludes s.url (str "wikipedia"))) then
        [jsAt keywords 0 ++ str " site:wikipedia.org"]
       else [])
    else []
  (layer1Queries ++ layer2Queries).take 3

/-- The text blob one source contributes to the coverage corpus: title,
description and content joined by single spaces (missing fields become
empty strings). -/
def sourceBlob (s : SourceInfo) : Str :=
  s.title ++ str " " ++ s.description.getD [] ++ str " " ++ s.content.getD []

/-- The lowercased corpus of all sources, blobs joined by single spaces. -/
def allContent (sources : List SourceInfo) : Str :=
  lower (joinWith (str " ") (sources.map sourceBlob))

/-- The fixed trigger table of evaluateCoverageSimple: trigger substrings
per aspect, the aspect name itself for aspects outside the table. -/
def aspectKeywords (aspect : Str) : List Str :=
  if aspect = str "definition" then [str "とは", str "定義", str "意味", str "is a", str "refers to"]
  else if aspect = str "reason" then [str "理由", str "なぜ", str "because", str "原因"]
  else if aspect = str "method" then [str "方法", str "やり方", str "手順", str "how to", str "steps"]
  else if aspect = str "timing" then [str "いつ", str "日時", str "期間", str "when", str "date"]
  else if aspect = str "location" then [str "場所", str "どこ", str "where", str "location"]
  else if aspect = str "similarities" then [str "共通点", str "同じ", str "similar"]
  else if aspect = str "differences" then [str "違い", str "異なる", str "difference"]
  else if aspect = str "pros_cons" then [str "メリット", str "デメリット", str "利点", str "欠点"]
  else if aspect = str "steps" then [str "ステップ", str "手順", str "順番"]
  else if aspect = str "implementation" then [str "実装", str "コード", str "implementation"]
  else if aspect = str "examples" then [str "例", str "サンプル", str "example"]
  else if aspect = str "reviews" then [str "レビュー", str "評価", str "口コミ"]
  else if aspect = str "latest_news" then [str "最新", str "ニュース", str "発表"]
  else [aspect]

/-- An aspect is covered when one of its triggers occurs in the corpus. -/
def aspectCovered (corpus : Str) (aspect : Str) : Bool :=
  (aspectKeywords aspect).any (fun kw => strIncludes corpus kw)

/-- The number of covered aspects. -/
def coveredAspectsCount (corpus : Str) (aspects : List Str) : Nat :=
  aspects.countP (fun a => aspectCovered corpus a)

/-- The uncovered aspects, in input order. -/
def coverageGaps (corpus : Str) (aspects : List Str) : List Str :=
  aspects.filter (fun a => !aspectCovered corpus a)

/-- aspectCoverage: covered over total when aspects exist, else the
neutral 0.5. -/
def aspectCoverage (sources : List SourceInfo) (analysis : QueryAnalysis) : ℚ :=
  if 0 < analysis.aspects.length then
    (coveredAspectsCount (allContent sources) analysis.aspects : ℚ) /
      (analysis.aspects.length : ℚ)
  else 0.5

/-- keywordCoverage: matched keywords over max(total, 1). -/
def keywordCoverage (sources : List SourceInfo) (analysis : QueryAnalysis) : ℚ :=
  ((analysis.keywords.filter
      (fun kw => strIncludes (allContent sources) (lower kw))).length : ℚ) /
    (max analysis.keywords.length 1 : ℚ)

/-- The pair evaluateCoverageSimple returns. -/
structure CoverageResult where
  coverage : ℚ
  gaps : List Str

/-- evaluateCoverageSimple: the weighted coverage score and the gap
list.  The query argument is accepted but, as in the source, never read. -/
def evaluateCoverageSimple (query : Str) (sources : List SourceInfo)
    (analysis : QueryAnalysis) : CoverageResult :=
  { coverage := aspectCoverage sources analysis * 0.6 + keywordCoverage sources analysis * 0.4,
    gaps := coverageGaps (allContent sources) analysis.aspects }

/-- URL normalization of deduplicateSources: strip a leading http or
https scheme, one trailing slash, then a leading www. prefix. -/
def normalizeUrl (u : Str) : Str :=
  let u1 :=
    if (str "https://").isPrefixOf u then u.drop 8
    else if (str "http://").isPrefixOf u then u.drop 7
    else u
  let u2 := if u1.getLast? = some '/' then u1.dropLast else u1
  if (str "www.").isPrefixOf u2 then u2.drop 4 else u2

/-- The filter of deduplicateSources with its mutable seen set made
explicit. -/
def deduplicateSourcesAux : List Str → List SourceInfo → List SourceInfo
  | _, [] => []
  | seen, s :: rest =>
    let n := normalizeUrl s.url
    if seen.contains n then deduplicateSourcesAux seen rest
    else s :: deduplicateSourcesAux (n :: seen) rest

/-- deduplicateSources: keep the first source for each normalized URL. -/
def deduplicateSources (sources : List SourceInfo) : List SourceInfo :=
  deduplicateSourcesAux [] sources

/-- The integrated search collaborator as the orchestrator sees it: one
query and one option record in, one result out.  multiLayerSearch is
parameterized over it, so theorems hold for every collaborator
behaviour. -/
abbrev SearchFn : Type := Str → ISOptions → IntegratedSearchResult

/-- Conversion of one integrated web result into a SourceInfo tagged with
its layer. -/
def toSourceInfo (layer : Nat) (item : ISWebItem) : SourceInfo :=
  { url := item.url, title := item.title, description := item.description,
    content := item.content, markdown := item.markdown, favicon := item.favicon,
    image := item.image, siteName := item.siteName, layer := layer }

/-- Conversion of one integrated news result into a NewsInfo tagged with
its layer. -/
def toNewsInfo (layer : Nat) (item : ISNewsItem) : NewsInfo :=
  { url := item.url, title := item.title, description := item.description,
    publishedDate := item.date, source := item.source, image := item.imageUrl,
    layer := layer }

/-- The running state of the orchestrator loop: the mutable variables of
multiLayerSearch between layers. -/
structure OrchestratorState where
  layers : List LayerResult
  allSources : List SourceInfo
  allNews : List NewsInfo
  totalSearches : Nat
  currentCoverage : ℚ

/-- The options of the layer-1 integrated search call: two extra results,
news and images enabled, scraping enabled. -/
def layer1Options (options : MultiLayerSearchOptions) : ISOptions :=
  { numResults := options.numResultsPerLayer + 2, includeNews := true,
    includeImages := true, scrapeContent := true, braveApiKey := options.braveApiKey }

/-- The options of a sub-query integrated search call in a later layer:
news only on layer 2, images disabled, scraping enabled. -/
def subQueryOptions (options : MultiLayerSearchOptions) (layerNum : Nat) : ISOptions :=
  { numResults := options.numResultsPerLayer, includeNews := layerNum == 2,
    includeImages := false, scrapeContent := true, braveApiKey := options.braveApiKey }

/-- The layer-1 sources of a session. -/
def layer1Sources (searchFn : SearchFn) (query : Str)
    (options : MultiLayerSearchOptions) : List SourceInfo :=
  (searchFn query (layer1Options options)).web.map (toSourceInfo 1)

/-- The layer-1 news of a session. -/
def layer1News (searchFn : SearchFn) (query : Str)
    (options : MultiLayerSearchOptions) : List NewsInfo :=
  (searchFn query (layer1Options options)).news.map (toNewsInfo 1)

/-- The state after layer 1: one search issued, layer-1 sources and news
accumulated (without deduplication), coverage evaluated on the layer-1
sources. -/
def initialState (searchFn : SearchFn) (query : Str)
    (options : MultiLayerSearchOptions) : OrchestratorState :=
  let sources := layer1Sources searchFn query options
  let news := layer1News searchFn query options
  let ev := evaluateCoverageSimple query sources (analyzeQuerySimple query)
  { layers := [{ layer := 1, query := query, sources := sources, newsResults := news,
                 coverage := ev.coverage, gaps := ev.gaps }],
    allSources := sources, allNews := news, totalSearches := 1,
    currentCoverage := ev.coverage }

/-- The web sources a layer beyond the first collects: one integrated
search call per sub-query, results concatenated in sub-query order. -/
def layerWebSources (searchFn : SearchFn) (options : MultiLayerSearchOptions)
    (layerNum : Nat) (subQueries : List Str) : List SourceInfo :=
  (subQueries.map (fun sq =>
    (searchFn sq (subQueryOptions options layerNum)).web.map (toSourceInfo layerNum))).flatten

/-- The news a layer beyond the first collects. -/
def layerNewsResults (searchFn : SearchFn) (options : MultiLayerSearchOptions)
    (layerNum : Nat) (subQueries : List Str) : List NewsInfo :=
  (subQueries.map (fun sq =>
    (searchFn sq (subQueryOptions options layerNum)).news.map (toNewsInfo layerNum))).flatten

/-- One layer beyond the first: search every sub-query, merge with
deduplication, record the newly surviving sources on the LayerResult, and
re-evaluate coverage on the full accumulated source set. -/
def runLayer (searchFn : SearchFn) (query : Str) (analysis : QueryAnalysis)
    (options : MultiLayerSearchOptions) (layerNum : Nat) (subQueries : List Str)
    (st : OrchestratorState) : OrchestratorState :=
  let layerSources := layerWebSources searchFn options layerNum subQueries
  let layerNews := layerNewsResults searchFn options layerNum subQueries
  let newSources := deduplicateSources (st.allSources ++ layerSources)
  let addedSources := newSources.drop st.allSources.length
  let ev := evaluateCoverageSimple query newSources analysis
  { layers := st.layers ++
      [{ layer := layerNum, query := joinWith (str " | ") subQueries,
         sources := addedSources, newsResults := layerNews,
         coverage := ev.coverage, gaps := ev.gaps }],
    allSources := newSources,
    allNews := st.allNews ++ layerNews,
    totalSearches := st.totalSearches + subQueries.length,
    currentCoverage := ev.coverage }

/-- The loop over layers 2 and beyond of multiLayerSearch: stop when the
current coverage reaches the minimum, when the fuel (the remaining layer
budget) is exhausted, or when no sub-queries are generated. -/
def layerLoop (searchFn : SearchFn) (query : Str) (analysis : QueryAnalysis)
    (options : MultiLayerSearchOptions) : Nat → Nat → OrchestratorState → OrchestratorState
  | 0, _, st => st
  | fuel + 1, layerNum, st =>
    if options.minCoverage ≤ st.currentCoverage then st
    else
      let subQueries := generateSubQueries query analysis st.allSources (layerNum - 1)
      if subQueries.isEmpty then st
      else
        layerLoop searchFn query analysis options fuel (layerNum + 1)
          (runLayer searchFn query analysis options layerNum subQueries st)

/-- The target depth of a session: the suggested depth of the analysis
capped by the configured maximum. -/
def targetDepthOf (query : Str) (options : MultiLayerSearchOptions) : Nat :=
  min (analyzeQuerySimple query).suggestedDepth options.maxLayers

/-- multiLayerSearch: analyze the query once, run layer 1, then the loop
over the remaining layer budget, and return the session result. -/
def multiLayerSearch (searchFn : SearchFn) (query : Str)
    (options : MultiLayerSearchOptions) : MultiLayerSearchResult :=
  let analysis := analyzeQuerySimple query
  let st :=
    layerLoop searchFn query analysis options (targetDepthOf query options - 1) 2
      (initialState searchFn query options)
  { layers := st.layers, allSources := st.allSources, allNews := st.allNews,
    imageResults := (searchFn query (layer1Options options)).images.map (fun item =>
      { url := item.url, title := item.title, thumbnail := some item.imageUrl,
        source := item.source, width := item.width, height := item.height }),
    totalSearches := st.totalSearches, finalCoverage := st.currentCoverage }

/-! ## Supporting lemmas -/

theorem strIncludes_nil_needle (hay : Str) : strIncludes hay [] = true := by
  cases hay with
  | nil => rfl
  | cons c rest => simp [strIncludes, List.isPrefixOf]

theorem isPrefixOf_append_of_isPrefixOf {n a t : Str} (h : n.isPrefixOf a = true) :
    n.isPrefixOf (a ++ t) = true := by
  rw [List.isPrefixOf_iff_prefix] at h ⊢
  exact h.trans (List.prefix_append a t)

theorem strIncludes_append {a t n : Str} (h : strIncludes a n = true) :
    strIncludes (a ++ t) n = true := by
  induction a with
  | nil =>
    simp only [strIncludes, List.isEmpty_iff] at h
    subst h
    exact strIncludes_nil_needle t
  | cons c rest ih =>
    simp only [strIncludes, Bool.or_eq_true] at h ⊢
    rcases h with h | h
    · exact Or.inl (isPrefixOf_append_of_isPrefixOf h)
    · exact Or.inr (ih h)

theorem joinWith_append_exists (sep : Str) (xs ys : List Str) :
    ∃ t, joinWith sep (xs ++ ys) = joinWith sep xs ++ t := by
  induction xs with
  | nil => exact ⟨joinWith sep ys, rfl⟩
  | cons b rest ih =>
    cases rest with
    | nil =>
      cases ys with
      | nil => exact ⟨[], by simp [joinWith]⟩
      | cons y ys' => exact ⟨sep ++ joinWith sep (y :: ys'), by simp [joinWith]⟩
    | cons c rest' =>
      obtain ⟨t, ht⟩ := ih
      refine ⟨t, ?_⟩
      simp only [List.cons_append, joinWith, List.append_eq] at ht ⊢
      rw [ht]
      simp [List.append_assoc]

theorem allContent_append_exists (sources extra : List SourceInfo) :
    ∃ t, allContent (sources ++ extra) = allContent sources ++ t := by
  obtain ⟨t, ht⟩ :=
    joinWith_append_exists (str " ") (sources.map sourceBlob) (extra.map sourceBlob)
  refine ⟨lower t, ?_⟩
  simp only [allContent, List.map_append, ht, lower, List.map_append]

theorem aspectCovered_mono {corpus t : Str} (aspect : Str)
    (h : aspectCovered corpus aspect = true) :
    aspectCovered (corpus ++ t) aspect = true := by
  simp only [aspectCovered, List.any_eq_true] at h ⊢
  obtain ⟨kw, hkw, hinc⟩ := h
  exact ⟨kw, hkw, strIncludes_append hinc⟩

theorem coveredAspectsCount_mono_append (sources extra : List SourceInfo)
    (aspects : List Str) :
    coveredAspectsCount (allContent sources) aspects ≤
      coveredAspectsCount (allContent (sources ++ extra)) aspects := by
  obtain ⟨t, ht⟩ := allContent_append_exists sources extra
  rw [ht]
  exact List.countP_mono_left (fun a _ h => aspectCovered_mono a h)

theorem coveredAspectsCount_le_length (corpus : Str) (aspects : List Str) :
    coveredAspectsCount corpus aspects ≤ aspects.length :=
  List.countP_le_length _

/-- Bounds of the aspect coverage score. -/
theorem aspectCoverage_mem_unit (sources : List SourceInfo) (analysis : QueryAnalysis) :
    0 ≤ aspectCoverage sources analysis ∧ aspectCoverage sources analysis ≤ 1 := by
  unfold aspectCoverage
  by_cases h : 0 < analysis.aspects.length
  · rw [if_pos h]
    have hpos : (0 : ℚ) < (analysis.aspects.length : ℚ) := by exact_mod_cast h
    constructor
    · positivity
    · rw [div_le_one hpos]
      exact_mod_cast coveredAspectsCount_le_length _ _
  · rw [if_neg h]
    norm_num

/-- Bounds of the keyword coverage score. -/
theorem keywordCoverage_mem_unit (sources : List SourceInfo) (analysis : QueryAnalysis) :
    0 ≤ keywordCoverage sources analysis ∧ keywordCoverage sources analysis ≤ 1 := by
  unfold keywordCoverage
  have hpos : (0 : ℚ) < (max analysis.keywords.length 1 : ℚ) := by
    have : 1 ≤ max analysis.keywords.length 1 := le_max_right _ _
    exact_mod_cast lt_of_lt_of_le Nat.zero_lt_one this
  constructor
  · positivity
  · rw [div_le_one hpos]
    have hle : (analysis.keywords.filter
        (fun kw => strIncludes (allContent sources) (lower kw))).length ≤
        max analysis.keywords.length 1 :=
      le_trans (List.length_filter_le _ _) (le_max_left _ _)
    exact_mod_cast hle

/-- The weighted coverage score lies in the unit interval. -/
theorem coverage_mem_unit (query : Str) (sources : List SourceInfo)
    (analysis : QueryAnalysis) :
    0 ≤ (evaluateCoverageSimple query sources analysis).coverage ∧
      (evaluateCoverageSimple query sources analysis).coverage ≤ 1 := by
  obtain ⟨ha0, ha1⟩ := aspectCoverage_mem_unit sources analysis
  obtain ⟨hk0, hk1⟩ := keywordCoverage_mem_unit sources analysis
  unfold evaluateCoverageSimple
  constructor
  · positivity
  · nlinarith


theorem find?_ext {α : Type} (p q : α → Bool) (h : ∀ x, p x = q x) (l : List α) :
    l.find? p = l.find? q := by
  induction l with
  | nil => rfl
  | cons a rest ih =>
    simp only [List.find?]
    rw [h a]
    cases q a with
    | true => rfl
    | false => exact ih

theorem mem_dedupAux_not_seen (l : List SourceInfo) :
    ∀ (seen : List Str), ∀ s ∈ deduplicateSourcesAux seen l,
      seen.contains (normalizeUrl s.url) = false := by
  induction l with
  | nil => intro seen s hs; simp [deduplicateSourcesAux] at hs
  | cons a rest ih =>
    intro seen s hs
    simp only [deduplicateSourcesAux] at hs
    by_cases hc : seen.contains (normalizeUrl a.url) = true
    · rw [if_pos hc] at hs
      exact ih seen s hs
    · rw [if_neg hc] at hs
      rcases List.mem_cons.mp hs with h | h
      · subst h
        exact Bool.not_eq_true _ |>.mp hc
      · have h2 := ih (normalizeUrl a.url :: seen) s h
        simp only [List.contains_cons, Bool.or_eq_false_iff] at h2
        exact h2.2

theorem dedupAux_pairwise (l : List SourceInfo) :
    ∀ (seen : List Str), (deduplicateSourcesAux seen l).Pairwise
      (fun a b => normalizeUrl a.url ≠ normalizeUrl b.url) := by
  induction l with
  | nil => intro seen; simp [deduplicateSourcesAux]
  | cons a rest ih =>
    intro seen
    simp only [deduplicateSourcesAux]
    by_cases hc : seen.contains (normalizeUrl a.url) = true
    · rw [if_pos hc]; exact ih seen
    · rw [if_neg hc]
      refine List.pairwise_cons.mpr ⟨?_, ih _⟩
      intro b hb heq
      have h2 := mem_dedupAux_not_seen rest (normalizeUrl a.url :: seen) b hb
      simp only [List.contains_cons, Bool.or_eq_false_iff] at h2
      have := h2.1
      rw [heq] at this
      simp at this

theorem dedupAux_find_first (l : List SourceInfo) :
    ∀ (seen : List Str), ∀ s ∈ deduplicateSourcesAux seen l,
      l.find? (fun t => (normalizeUrl t.url == normalizeUrl s.url) &&
        !seen.contains (normalizeUrl t.url)) = some s := by
  induction l with
  | nil => intro seen s hs; simp [deduplicateSourcesAux] at hs
  | cons a rest ih =>
    intro seen s hs
    simp only [deduplicateSourcesAux] at hs
    by_cases hc : seen.contains (normalizeUrl a.url) = true
    · rw [if_pos hc] at hs
      have hfind := ih seen s hs
      rw [List.find?_cons_of_neg _ (by rw [hc]; simp)]
      exact hfind
    · rw [if_neg hc] at hs
      rcases List.mem_cons.mp hs with h | h
      · subst h
        exact List.find?_cons_of_pos _ (by simp; simpa using hc)
      · have hfind := ih (normalizeUrl a.url :: seen) s h
        have hns := mem_dedupAux_not_seen rest (normalizeUrl a.url :: seen) s h
        simp only [List.contains_cons, Bool.or_eq_false_iff] at hns
        have hane : (normalizeUrl a.url == normalizeUrl s.url) = false := by
          have := hns.1
          cases hbe : normalizeUrl a.url == normalizeUrl s.url
          · rfl
          · rw [beq_iff_eq] at hbe
            rw [hbe] at this
            simp at this
        rw [List.find?_cons_of_neg _ (by rw [hane]; simp)]
        rw [← hfind]
        refine find?_ext _ _ ?_ rest
        intro x
        cases hxe : normalizeUrl x.url == normalizeUrl s.url
        · simp [hxe]
        · rw [beq_iff_eq] at hxe
          simp only [List.contains_cons, hxe]
          have h1 : (normalizeUrl s.url == normalizeUrl a.url) = false := by
            cases hbe : normalizeUrl s.url == normalizeUrl a.url
            · rfl
            · rw [beq_iff_eq] at hbe
              rw [hbe] at hane
              simp at hane
          simp [h1, hxe, beq_iff_eq]

theorem dedupAux_represented (l : List SourceInfo) :
    ∀ (seen : List Str), ∀ s ∈ l, seen.contains (normalizeUrl s.url) = false →
      ∃ t ∈ deduplicateSourcesAux seen l, normalizeUrl t.url = normalizeUrl s.url := by
  induction l with
  | nil => intro seen s hs; simp at hs
  | cons a rest ih =>
    intro seen s hs hns
    simp only [deduplicateSourcesAux]
    by_cases hc : seen.contains (normalizeUrl a.url) = true
    · rw [if_pos hc]
      rcases List.mem_cons.mp hs with h | h
      · subst h; rw [hns] at hc; simp at hc
      · exact ih seen s h hns
    · rw [if_neg hc]
      rcases List.mem_cons.mp hs with h | h
      · subst h
        exact ⟨s, List.mem_cons_self _ _, rfl⟩
      · by_cases heq : normalizeUrl s.url = normalizeUrl a.url
        · exact ⟨a, List.mem_cons_self _ _, heq.symm⟩
        · have hcons : (normalizeUrl a.url :: seen).contains (normalizeUrl s.url) = false := by
            simp only [List.contains_cons, Bool.or_eq_false_iff]
            exact ⟨by simpa [beq_iff_eq] using heq, hns⟩
          obtain ⟨t, ht, hteq⟩ := ih (normalizeUrl a.url :: seen) s h hcons
          exact ⟨t, List.mem_cons_of_mem _ ht, hteq⟩

theorem dedup_find_first (l : List SourceInfo) :
    ∀ s ∈ deduplicateSources l,
      l.find? (fun t => normalizeUrl t.url == normalizeUrl s.url) = some s := by
  intro s hs
  have h := dedupAux_find_first l [] s hs
  rw [← h]
  exact (find?_ext _ _ (fun x => by simp) l).symm

theorem runLayer_layers_length (searchFn : SearchFn) (query : Str)
    (analysis : QueryAnalysis) (options : MultiLayerSearchOptions) (layerNum : Nat)
    (subQueries : List Str) (st : OrchestratorState) :
    (runLayer searchFn query analysis options layerNum subQueries st).layers.length
      = st.layers.length + 1 := by
  simp [runLayer]

theorem layerLoop_layers_length_le (searchFn : SearchFn) (query : Str)
    (analysis : QueryAnalysis) (options : MultiLayerSearchOptions) :
    ∀ (fuel layerNum : Nat) (st : OrchestratorState),
      (layerLoop searchFn query analysis options fuel layerNum st).layers.length
        ≤ st.layers.length + fuel := by
  intro fuel
  induction fuel with
  | zero => intro ln st; simp [layerLoop]
  | succ n ih =>
    intro ln st
    simp only [layerLoop]
    by_cases h : options.minCoverage ≤ st.currentCoverage
    · rw [if_pos h]; omega
    · rw [if_neg h]
      by_cases h2 : (generateSubQueries query analysis st.allSources (ln - 1)).isEmpty = true
      · rw [if_pos h2]; omega
      · rw [if_neg h2]
        have := ih (ln + 1) (runLayer searchFn query analysis options ln
          (generateSubQueries query analysis st.allSources (ln - 1)) st)
        rw [runLayer_layers_length] at this
        omega

theorem suggestedDepthFor_bounds (complexity : QueryComplexity) (intent : QueryIntent) :
    1 ≤ suggestedDepthFor complexity intent ∧ suggestedDepthFor complexity intent ≤ 3 := by
  cases complexity <;> cases intent <;> decide

theorem suggestedDepth_bounds (query : Str) :
    1 ≤ (analyzeQuerySimple query).suggestedDepth ∧
      (analyzeQuerySimple query).suggestedDepth ≤ 3 := by
  simp only [analyzeQuerySimple]
  exact suggestedDepthFor_bounds _ _

theorem layerLoop_stop (searchFn : SearchFn) (query : Str) (analysis : QueryAnalysis)
    (options : MultiLayerSearchOptions) (fuel layerNum : Nat) (st : OrchestratorState)
    (h : options.minCoverage ≤ st.currentCoverage) :
    layerLoop searchFn query analysis options fuel layerNum st = st := by
  cases fuel with
  | zero => rfl
  | succ n => simp only [layerLoop]; rw [if_pos h]

theorem layerLoop_stop_noSubQueries (searchFn : SearchFn) (query : Str)
    (analysis : QueryAnalysis) (options : MultiLayerSearchOptions) (fuel layerNum : Nat)
    (st : OrchestratorState)
    (h : generateSubQueries query analysis st.allSources (layerNum - 1) = []) :
    layerLoop searchFn query analysis options fuel layerNum st = st := by
  cases fuel with
  | zero => rfl
  | succ n =>
    simp only [layerLoop]
    by_cases hc : options.minCoverage ≤ st.currentCoverage
    · rw [if_pos hc]
    · rw [if_neg hc, if_pos (by rw [h]; rfl)]


/-! ## Concrete fixtures used by counterexamples and witnesses -/

/-- A collaborator whose layer-1 web results carry two distinct URLs that
normalize to the same value. -/
def oracleDup : SearchFn := fun _ _ =>
  { web := [{ url := str "http://example.com", title := str "A" },
            { url := str "https://www.example.com/", title := str "B" }] }

/-- A collaborator returning no results at all. -/
def oracleEmpty : SearchFn := fun _ _ => {}

/-- Session options with a zero coverage minimum. -/
def mlOptions0 : MultiLayerSearchOptions :=
  { maxLayers := 2, minCoverage := 0, numResultsPerLayer := 4 }

/-- A source whose content ends in the word is. -/
def srcA : SourceInfo :=
  { url := str "u1", title := str "t", content := some (str "x is"), layer := 1 }

/-- A source whose title starts with the letter a. -/
def srcB : SourceInfo := { url := str "u2", title := str "a world", layer := 1 }

/-- An unrelated source. -/
def srcC : SourceInfo := { url := str "u3", title := str "z", layer := 1 }

/-- An analysis asking for the definition aspect only. -/
def qaC3 : QueryAnalysis :=
  { intent := .factual, complexity := .simple, suggestedDepth := 1,
    aspects := [str "definition"], keywords := [] }

/-- An analysis with no keywords at all. -/
def qaNoKw : QueryAnalysis :=
  { intent := .factual, complexity := .simple, suggestedDepth := 1,
    aspects := [], keywords := [] }

/-! ## Claims -/

/-- C2: for every query, aspect list, keyword list and source list, the
coverage evaluator returns coverage = 0.6 times the aspect coverage plus
0.4 times the keyword coverage, where the aspect coverage is covered over
total when at least one aspect exists and 0.5 otherwise, the keyword
coverage is matched over max(1, total), the result lies in the unit
interval, and the gaps are exactly the uncovered aspects in input
order. -/
theorem c2_coverage_formula (query : Str) (sources : List SourceInfo)
    (analysis : QueryAnalysis) :
    (evaluateCoverageSimple query sources analysis).coverage
        = 0.6 * aspectCoverage sources analysis
          + 0.4 * keywordCoverage sources analysis ∧
    (analysis.aspects ≠ [] →
      aspectCoverage sources analysis
        = (coveredAspectsCount (allContent sources) analysis.aspects : ℚ) /
            (analysis.aspects.length : ℚ)) ∧
    (analysis.aspects = [] → aspectCoverage sources analysis = 0.5) ∧
    keywordCoverage sources analysis
      = ((analysis.keywords.filter
          (fun kw => strIncludes (allContent sources) (lower kw))).length : ℚ) /
          (max analysis.keywords.length 1 : ℚ) ∧
    0 ≤ (evaluateCoverageSimple query sources analysis).coverage ∧
    (evaluateCoverageSimple query sources analysis).coverage ≤ 1 ∧
    (evaluateCoverageSimple query sources analysis).gaps
      = analysis.aspects.filter (fun a => !aspectCovered (allContent sources) a) := by
  refine ⟨by unfold evaluateCoverageSimple; ring, ?_, ?_, rfl,
    (coverage_mem_unit query sources analysis).1,
    (coverage_mem_unit query sources analysis).2, rfl⟩
  · intro h
    unfold aspectCoverage
    rw [if_pos (List.length_pos.mpr h)]
  · intro h
    unfold aspectCoverage
    rw [h]
    norm_num

/-- Witness for C2 at a concrete one-aspect analysis. -/
theorem c2_coverage_formula_witness :
    qaC3.aspects ≠ [] ∧
    aspectCoverage [] qaC3
      = (coveredAspectsCount (allContent []) qaC3.aspects : ℚ) /
          (qaC3.aspects.length : ℚ) :=
  ⟨by decide, (c2_coverage_formula [] [] qaC3).2.1 (by decide)⟩

/-- C3 counterexample: the list with the extra source srcC interleaved
contains every source of the smaller list, yet its aspect coverage is
strictly smaller: the trigger is a followed by space followed by a,
matched across the boundary of the two adjacent blobs, and the inserted
source breaks the adjacency. -/
theorem c3_counterexample :
    ([srcA, srcB].all (fun s => [srcA, srcC, srcB].contains s) = true) ∧
    aspectCoverage [srcA, srcC, srcB] qaC3 < aspectCoverage [srcA, srcB] qaC3 := by
  constructor
  · decide
  · have h1 : coveredAspectsCount (allContent [srcA, srcB]) qaC3.aspects = 1 := by decide
    have h2 : coveredAspectsCount (allContent [srcA, srcC, srcB]) qaC3.aspects = 0 := by decide
    have hlen : qaC3.aspects.length = 1 := by decide
    unfold aspectCoverage
    rw [h1, h2, hlen]
    norm_num

/-- C3 amended: running the coverage evaluator on a source list extended
by appending new sources never decreases the aspect coverage (this is the
accumulation pattern of the orchestrator); an arbitrary superset can
decrease it, because coverage is substring search over one space-joined
corpus and a match can span the boundary between adjacent sources. -/
theorem c3_aspect_coverage_monotone (analysis : QueryAnalysis)
    (sources extra : List SourceInfo) :
    aspectCoverage sources analysis ≤ aspectCoverage (sources ++ extra) analysis := by
  unfold aspectCoverage
  by_cases h : 0 < analysis.aspects.length
  · rw [if_pos h, if_pos h]
    have hpos : (0 : ℚ) < (analysis.aspects.length : ℚ) := by exact_mod_cast h
    have hmono := coveredAspectsCount_mono_append sources extra analysis.aspects
    gcongr
  · rw [if_neg h, if_neg h]

/-- Witness for C3 at concrete lists. -/
theorem c3_aspect_coverage_monotone_witness :
    aspectCoverage [srcA] qaC3 ≤ aspectCoverage ([srcA] ++ [srcB]) qaC3 :=
  c3_aspect_coverage_monotone qaC3 [srcA] [srcB]

/-- C1 counterexample: a session whose layer-1 results carry two distinct
URLs with the same normalized URL and whose coverage minimum is zero stops
after layer 1, and its final allSources keeps both sources: the
at-most-one-per-normalized-URL invariant fails for the final source set of
this session, because layer-1 sources are never deduplicated. -/
theorem c1_counterexample :
    (multiLayerSearch oracleDup (str "test") mlOptions0).allSources.map (fun s => s.url)
        = [str "http://example.com", str "https://www.example.com/"] ∧
    normalizeUrl (str "http://example.com")
      = normalizeUrl (str "https://www.example.com/") := by
  decide

/-- C1 amended: every merge of accumulated sources with a new layer
deduplicates by normalized URL with first-wins semantics: the merged set
holds pairwise distinct normalized URLs, every survivor is the first
occurrence of its normalized URL in the concatenated input, no normalized
URL of the input is lost, and when the earlier accumulated list already
holds a normalized URL the survivor comes from that earlier list.  The
invariant holds for allSources after any merge, but not necessarily for a
session that ends at layer 1, whose sources are never deduplicated. -/
theorem c1_merge_dedup_first_wins (older newer : List SourceInfo) :
    (deduplicateSources (older ++ newer)).Pairwise
        (fun a b => normalizeUrl a.url ≠ normalizeUrl b.url) ∧
    (∀ s ∈ deduplicateSources (older ++ newer),
      (older ++ newer).find? (fun t => normalizeUrl t.url == normalizeUrl s.url)
        = some s) ∧
    (∀ s ∈ older ++ newer, ∃ t ∈ deduplicateSources (older ++ newer),
      normalizeUrl t.url = normalizeUrl s.url) ∧
    (∀ a ∈ older, ∀ b ∈ deduplicateSources (older ++ newer),
      normalizeUrl b.url = normalizeUrl a.url → b ∈ older) := by
  refine ⟨dedupAux_pairwise _ [], dedup_find_first _, ?_, ?_⟩
  · intro s hs
    exact dedupAux_represented _ [] s hs rfl
  · intro a ha b hb heq
    have hfind := dedup_find_first _ b hb
    rw [List.find?_append] at hfind
    have hsome : (older.find?
        (fun t => normalizeUrl t.url == normalizeUrl b.url)).isSome := by
      rw [List.find?_isSome]
      exact ⟨a, ha, by rw [heq]; simp⟩
    obtain ⟨c, hc⟩ := Option.isSome_iff_exists.mp hsome
    rw [hc] at hfind
    have h2 : some c = some b := hfind
    obtain rfl : c = b := by injection h2
    exact List.mem_of_find?_eq_some hc

/-- Witness for C1 at concrete lists. -/
theorem c1_merge_dedup_first_wins_witness :
    ∃ t ∈ deduplicateSources ([srcA] ++ [srcB]),
      normalizeUrl t.url = normalizeUrl srcB.url :=
  (c1_merge_dedup_first_wins [srcA] [srcB]).2.2.1 srcB (by simp)

/-- C4: the orchestrator always terminates: sessions run at most
min(suggestedDepth, maxLayers) layers (the configured maxLayers is at
least 1, as the external interface requires); a session stops after layer
1 alone when the minimum coverage is 0, when the layer-1 coverage already
reaches the minimum, or when the sub-query generator proposes nothing for
the layer-1-to-2 transition. -/
theorem c4_terminates (searchFn : SearchFn) (query : Str)
    (options : MultiLayerSearchOptions) (hmax : 1 ≤ options.maxLayers) :
    (multiLayerSearch searchFn query options).layers.length
        ≤ min (analyzeQuerySimple query).suggestedDepth options.maxLayers ∧
    (options.minCoverage = 0 →
      (multiLayerSearch searchFn query options).layers.length = 1) ∧
    (options.minCoverage ≤ (initialState searchFn query options).currentCoverage →
      (multiLayerSearch searchFn query options).layers.length = 1) ∧
    (generateSubQueries query (analyzeQuerySimple query)
        (layer1Sources searchFn query options) 1 = [] →
      (multiLayerSearch searchFn query options).layers.length = 1) := by
  have hlayers : (multiLayerSearch searchFn query options).layers
      = (layerLoop searchFn query (analyzeQuerySimple query) options
          (targetDepthOf query options - 1) 2
          (initialState searchFn query options)).layers := rfl
  have hinit : (initialState searchFn query options).layers.length = 1 := rfl
  have hstop : options.minCoverage ≤ (initialState searchFn query options).currentCoverage →
      (multiLayerSearch searchFn query options).layers.length = 1 := by
    intro h
    rw [hlayers, layerLoop_stop _ _ _ _ _ _ _ h, hinit]
  refine ⟨?_, ?_, hstop, ?_⟩
  · rw [hlayers]
    have h := layerLoop_layers_length_le searchFn query (analyzeQuerySimple query) options
      (targetDepthOf query options - 1) 2 (initialState searchFn query options)
    rw [hinit] at h
    have h1 : 1 ≤ (analyzeQuerySimple query).suggestedDepth :=
      (suggestedDepth_bounds query).1
    have h2 : targetDepthOf query options
        = min (analyzeQuerySimple query).suggestedDepth options.maxLayers := rfl
    omega
  · intro hz
    apply hstop
    rw [hz]
    exact (coverage_mem_unit query (layer1Sources searchFn query options)
      (analyzeQuerySimple query)).1
  · intro h
    rw [hlayers, layerLoop_stop_noSubQueries _ _ _ _ _ _ _ h, hinit]

/-- Witness for C4: with a zero coverage minimum, the session has exactly
one layer. -/
theorem c4_terminates_witness :
    1 ≤ mlOptions0.maxLayers ∧
    (multiLayerSearch oracleEmpty (str "test") mlOptions0).layers.length = 1 :=
  ⟨by decide, (c4_terminates oracleEmpty (str "test") mlOptions0 (by decide)).2.1 rfl⟩


/-- Every sub-query list is capped at three entries. -/
theorem generateSubQueries_length_le (originalQuery : Str) (analysis : QueryAnalysis)
    (existingSources : List SourceInfo) (layer : Nat) :
    (generateSubQueries originalQuery analysis existingSources layer).length ≤ 3 := by
  simp only [generateSubQueries]
  rw [List.length_take]
  omega

/-- The layer-2 proposal list always holds at least the two unconditional
expert-opinion and recent-research queries. -/
theorem generateSubQueries_layer2_two_le (originalQuery : Str) (analysis : QueryAnalysis)
    (existingSources : List SourceInfo) :
    2 ≤ (generateSubQueries originalQuery analysis existingSources 2).length := by
  by_cases hW : (existingSources.any
      (fun s => strIncludes s.url (str "wikipedia"))) = true <;>
    simp [generateSubQueries, hW]

/-- C5: a layer beyond the first issues exactly one integrated search
call per proposed sub-query (one totalSearches increment each, layer
sources being the concatenation, in sub-query order, of one search result
conversion per sub-query), merges with deduplication into the full
accumulated source set, records on the new LayerResult the coverage
evaluated on that full accumulated set, stores the same value as the
running coverage, and the loop reads exactly that running coverage for the
next stop decision. -/
theorem c5_layer_accounting (searchFn : SearchFn) (query : Str)
    (analysis : QueryAnalysis) (options : MultiLayerSearchOptions) (layerNum : Nat)
    (subQueries : List Str) (st : OrchestratorState) :
    (runLayer searchFn query analysis options layerNum subQueries st).totalSearches
        = st.totalSearches + subQueries.length ∧
    layerWebSources searchFn options layerNum subQueries
        = (subQueries.map (fun sq =>
            (searchFn sq (subQueryOptions options layerNum)).web.map
              (toSourceInfo layerNum))).flatten ∧
    (runLayer searchFn query analysis options layerNum subQueries st).allSources
        = deduplicateSources
            (st.allSources ++ layerWebSources searchFn options layerNum subQueries) ∧
    (runLayer searchFn query analysis options layerNum subQueries st).layers
        = st.layers ++
            [{ layer := layerNum,
               query := joinWith (str " | ") subQueries,
               sources := (runLayer searchFn query analysis options layerNum
                   subQueries st).allSources.drop st.allSources.length,
               newsResults := layerNewsResults searchFn options layerNum subQueries,
               coverage := (evaluateCoverageSimple query
                   (runLayer searchFn query analysis options layerNum subQueries
                     st).allSources analysis).coverage,
               gaps := (evaluateCoverageSimple query
                   (runLayer searchFn query analysis options layerNum subQueries
                     st).allSources analysis).gaps }] ∧
    (runLayer searchFn query analysis options layerNum subQueries st).currentCoverage
        = (evaluateCoverageSimple query
            (runLayer searchFn query analysis options layerNum subQueries
              st).allSources analysis).coverage ∧
    (∀ (fuel : Nat) (stPrev : OrchestratorState),
      layerLoop searchFn query analysis options (fuel + 1) layerNum stPrev
        = if options.minCoverage ≤ stPrev.currentCoverage then stPrev
          else if (generateSubQueries query analysis stPrev.allSources
              (layerNum - 1)).isEmpty then stPrev
          else layerLoop searchFn query analysis options fuel (layerNum + 1)
            (runLayer searchFn query analysis options layerNum
              (generateSubQueries query analysis stPrev.allSources (layerNum - 1))
              stPrev)) :=
  ⟨rfl, rfl, rfl, rfl, rfl, fun _ _ => rfl⟩

/-- A concrete loop state for witnesses. -/
def st0C5 : OrchestratorState :=
  { layers := [], allSources := [], allNews := [], totalSearches := 1,
    currentCoverage := 0 }

/-- Witness for C5: two sub-queries add exactly two searches. -/
theorem c5_layer_accounting_witness :
    (runLayer oracleEmpty (str "q") qaNoKw mlOptions0 2
        [str "a1", str "a2"] st0C5).totalSearches
      = st0C5.totalSearches + (([str "a1", str "a2"] : List Str)).length :=
  (c5_layer_accounting oracleEmpty (str "q") qaNoKw mlOptions0 2
    [str "a1", str "a2"] st0C5).1

/-- C6: the sub-query generator always returns at most 3 proposals, and
with insufficient keywords it returns fewer, including zero: the
comparison query with no splittable parts and no usable keywords yields
zero proposals (a valid early-stop signal), and the current-events query
with no usable keywords yields a single proposal. -/
theorem c6_subqueries_bounded :
    (∀ (originalQuery : Str) (analysis : QueryAnalysis)
      (existingSources : List SourceInfo) (layer : Nat),
      (generateSubQueries originalQuery analysis existingSources layer).length ≤ 3) ∧
    generateSubQueries (str "比較") (analyzeQuerySimple (str "比較")) [] 1 = [] ∧
    (generateSubQueries (str "最新") (analyzeQuerySimple (str "最新")) [] 1).length = 1 :=
  ⟨generateSubQueries_length_le, by decide, by decide⟩

/-- Witness for C6: the zero-proposal instance. -/
theorem c6_subqueries_bounded_witness :
    generateSubQueries (str "比較") (analyzeQuerySimple (str "比較")) [] 1 = [] :=
  c6_subqueries_bounded.2.1

/-- C10: for completed layer 2 the sub-query generator always proposes at
least two queries (the expert-opinion and recent-research variants are
unconditional); with zero keywords their texts embed the literal word
undefined from the unguarded first-keyword access; hence in the loop the
zero-proposal stop can never fire at the layer-2-to-layer-3 transition:
when the coverage check does not stop the loop at layer 3, a layer is
always run. -/
theorem c10_layer2_always_proposes (originalQuery : Str) (analysis : QueryAnalysis)
    (existingSources : List SourceInfo) :
    2 ≤ (generateSubQueries originalQuery analysis existingSources 2).length ∧
    (analysis.keywords = [] →
      (generateSubQueries originalQuery analysis existingSources 2).take 2
        = [str "undefined 専門家 見解", str "undefined 最新研究 論文"]) ∧
    (∀ (searchFn : SearchFn) (options : MultiLayerSearchOptions) (fuel : Nat)
      (st : OrchestratorState), ¬ options.minCoverage ≤ st.currentCoverage →
      layerLoop searchFn originalQuery analysis options (fuel + 1) 3 st
        = layerLoop searchFn originalQuery analysis options fuel 4
            (runLayer searchFn originalQuery analysis options 3
              (generateSubQueries originalQuery analysis st.allSources 2) st)) := by
  refine ⟨generateSubQueries_layer2_two_le _ _ _, ?_, ?_⟩
  · intro hk
    by_cases hW : (existingSources.any
        (fun s => strIncludes s.url (str "wikipedia"))) = true <;>
      simp [generateSubQueries, hW, hk, jsAt, str]
  · intro searchFn options fuel st hcov
    have hne : (generateSubQueries originalQuery analysis st.allSources (3 - 1)).isEmpty
        = false := by
      have h2 := generateSubQueries_layer2_two_le originalQuery analysis st.allSources
      cases hgen : generateSubQueries originalQuery analysis st.allSources 2 with
      | nil => rw [hgen] at h2; simp at h2
      | cons a rest => simp [show (3 : Nat) - 1 = 2 from rfl, hgen]
    simp only [layerLoop]
    rw [if_neg hcov, hne]
    simp

/-- Witness for C10 at a concrete keyword-free analysis. -/
theorem c10_layer2_always_proposes_witness :
    (generateSubQueries (str "x") qaNoKw [] 2).take 2
      = [str "undefined 専門家 見解", str "undefined 最新研究 論文"] :=
  (c10_layer2_always_proposes (str "x") qaNoKw []).2.1 rfl


/-- The fallback shape taken when scraping is disabled keeps the provider
description as content. -/
theorem noScrapeWebResult_content (urlHost : Str → Option Str) (r : WebSearchResult) :
    (noScrapeWebResult urlHost r).content = r.description := rfl

/-- C7 amended: in the merge, when the fetch produced more than 50
characters of body text or markdown, the fetched
title/description/content/markdown/favicon/image/site-name are preferred
over the provider values; when it produced at most 50 characters and the
provider description is truthy, the merged markdown is the hash-heading
line built from the provider title followed by a blank line and the
description, and the merged content is the provider description verbatim;
and a web result is never dropped: the merged list always has the length
of the provider web list. -/
theorem c7_merge_fallback (urlHost : Str → Option Str)
    (scrapedResults : List ScrapeResult) (searchResult : WebSearchResult) :
    (hasScrapedContent (scrapedResults.find? (fun s => s.url == searchResult.url))
        = true →
      (mergeWebResult urlHost scrapedResults searchResult).markdown
          = (scrapedResults.find? (fun s => s.url == searchResult.url)).bind
              (fun s => s.markdown) ∧
      (mergeWebResult urlHost scrapedResults searchResult).content
          = (scrapedResults.find? (fun s => s.url == searchResult.url)).bind
              (fun s => s.content) ∧
      (mergeWebResult urlHost scrapedResults searchResult).favicon
          = (scrapedResults.find? (fun s => s.url == searchResult.url)).bind
              (fun s => s.favicon) ∧
      (mergeWebResult urlHost scrapedResults searchResult).image
          = (scrapedResults.find? (fun s => s.url == searchResult.url)).bind
              (fun s => s.ogImage) ∧
      (mergeWebResult urlHost scrapedResults searchResult).title
          = (jsOr ((scrapedResults.find? (fun s => s.url == searchResult.url)).map
              (fun s => s.title)) (some searchResult.title)).getD [] ∧
      (mergeWebResult urlHost scrapedResults searchResult).description
          = jsOr ((scrapedResults.find? (fun s => s.url == searchResult.url)).bind
              (fun s => s.description)) searchResult.description) ∧
    (hasScrapedContent (scrapedResults.find? (fun s => s.url == searchResult.url))
        = false → truthy searchResult.description = true →
      (mergeWebResult urlHost scrapedResults searchResult).markdown
          = some (str "# " ++ searchResult.title ++ str "\n\n"
              ++ searchResult.description.getD []) ∧
      (mergeWebResult urlHost scrapedResults searchResult).content
          = searchResult.description) ∧
    (∀ (searchProv : Str → SearchOptions → SearchResponse)
        (scrapeFn : List Str → List ScrapeResult) (query : Str) (opts : ISOptions),
      (integratedSearch searchProv scrapeFn urlHost query opts).web.length
        = ((searchProv query (providerOptions opts)).web.getD []).length) := by
  refine ⟨?_, ?_, ?_⟩
  · intro h
    simp [mergeWebResult, h]
  · intro h hdesc
    simp [mergeWebResult, h, hdesc]
  · intro searchProv scrapeFn query opts
    simp only [integratedSearch]
    by_cases hw : ((searchProv query (providerOptions opts)).web.getD []).isEmpty = true
    · rw [if_pos hw]
      rw [List.isEmpty_iff] at hw
      rw [hw]
      rfl
    · rw [if_neg hw]
      by_cases hs : opts.scrapeContent = true
      · rw [if_pos hs]
        exact List.length_map _ _
      · rw [if_neg hs]
        exact List.length_map _ _

/-- A URL parser model for concrete instances. -/
def host0 : Str → Option Str := fun _ => some (str "example.com")

/-- A provider result with a non-empty description. -/
def srFall : WebSearchResult :=
  { url := str "u", title := str "T", description := some (str "provider description") }

/-- A scrape result with 60 characters of content. -/
def scrBig : ScrapeResult :=
  { url := str "u", title := str "S", content := some (List.replicate 60 'a') }

/-- A scrape result with exactly 50 characters of content. -/
def scr50 : ScrapeResult :=
  { url := str "u", title := str "S", content := some (List.replicate 50 'a') }

/-- Witness for C7: with 60 characters of fetched content, the merged
content is the fetched one. -/
theorem c7_merge_fallback_witness :
    (mergeWebResult host0 [scrBig] srFall).content = some (List.replicate 60 'a') := by
  have h := ((c7_merge_fallback host0 [scrBig] srFall).1 (by decide)).2.1
  rw [h]
  decide

/-- C7 counterexample: a fetch that produced exactly 50 characters of
content is not preferred, contradicting the at-least-50 reading: the
merged content is the provider description, not the fetched content, so
the threshold is strictly more than 50 characters. -/
theorem c7_counterexample :
    scr50.content = some (List.replicate 50 'a') ∧
    (List.replicate 50 'a').length = 50 ∧
    (mergeWebResult host0 [scr50] srFall).content = some (str "provider description") ∧
    (mergeWebResult host0 [scr50] srFall).content ≠ scr50.content := by
  refine ⟨rfl, by decide, by decide, by decide⟩

/-- C8: with scrapeContent false, integrated search never consults the
scraper (its result does not depend on the scrape collaborator at all),
and every returned web result carries the synthesized fallback shape: its
content is the provider description and its markdown is the hash-heading
fallback exactly when the description is truthy. -/
theorem c8_scrape_skipped (searchProv : Str → SearchOptions → SearchResponse)
    (urlHost : Str → Option Str) (query : Str) (opts : ISOptions)
    (h : opts.scrapeContent = false)
    (scrapeFnA scrapeFnB : List Str → List ScrapeResult) :
    integratedSearch searchProv scrapeFnA urlHost query opts
        = integratedSearch searchProv scrapeFnB urlHost query opts ∧
    (integratedSearch searchProv scrapeFnA urlHost query opts).web.map
        (fun r => r.content)
      = ((searchProv query (providerOptions opts)).web.getD []).map
          (fun r => r.description) ∧
    (integratedSearch searchProv scrapeFnA urlHost query opts).web.map
        (fun r => r.markdown)
      = ((searchProv query (providerOptions opts)).web.getD []).map
          (fun r => if truthy r.description then
              some (str "# " ++ r.title ++ str "\n\n" ++ r.description.getD [])
            else none) := by
  have hweb : ∀ scrapeFn : List Str → List ScrapeResult,
      (integratedSearch searchProv scrapeFn urlHost query opts).web
        = if ((searchProv query (providerOptions opts)).web.getD []).isEmpty then []
          else ((searchProv query (providerOptions opts)).web.getD []).map
            (noScrapeWebResult urlHost) := by
    intro scrapeFn
    simp [integratedSearch, h]
  refine ⟨?_, ?_, ?_⟩
  · have hA := hweb scrapeFnA
    have hB := hweb scrapeFnB
    simp only [integratedSearch] at hA hB ⊢
    rw [hA, hB]
  · rw [hweb scrapeFnA]
    by_cases hw : ((searchProv query (providerOptions opts)).web.getD []).isEmpty = true
    · rw [if_pos hw]
      rw [List.isEmpty_iff] at hw
      rw [hw]
      rfl
    · rw [if_neg hw, List.map_map]
      rfl
  · rw [hweb scrapeFnA]
    by_cases hw : ((searchProv query (providerOptions opts)).web.getD []).isEmpty = true
    · rw [if_pos hw]
      rw [List.isEmpty_iff] at hw
      rw [hw]
      rfl
    · rw [if_neg hw, List.map_map]
      rfl

/-- A provider with one web result carrying a description. -/
def provOne : Str → SearchOptions → SearchResponse := fun _ _ =>
  { web := some [{ url := str "u", title := str "T", description := some (str "d") }] }

/-- Options with scraping disabled. -/
def isOptsNoScrape : ISOptions := { scrapeContent := false }

/-- Witness for C8: the single result keeps its provider description as
content. -/
theorem c8_scrape_skipped_witness :
    (integratedSearch provOne (fun _ => []) host0 (str "q") isOptsNoScrape).web.map
        (fun r => r.content)
      = [some (str "d")] := by
  have h := (c8_scrape_skipped provOne host0 (str "q") isOptsNoScrape rfl
    (fun _ => []) (fun _ => [])).2.1
  rw [h]
  decide

/-- C9: the search provider client is total at its boundary (the embedded
search is a function into SearchResponse for every oracle outcome, query
and options, the empty query included) and absorbs provider-side errors:
a failed Brave web, news or image call yields an empty list for that
result type, and a failed DuckDuckGo call (fetch error, bad status or
anti-bot block) yields the all-empty response. -/
theorem c9_search_absorbs (o : SearchOracles) (query : Str) (options : SearchOptions) :
    (options.braveApiKey.isSome = true → o.braveWeb.isFail = true →
      (search o query options).web = some []) ∧
    (options.braveApiKey.isSome = true → o.braveNews.isFail = true →
      (search o query options).news = some []) ∧
    (options.braveApiKey.isSome = true → o.braveImages.isFail = true →
      (search o query options).images = some []) ∧
    (options.braveApiKey = none → ddgFails o.ddg = true →
      search o query options
        = { web := some [], news := some [], images := some [] }) := by
  refine ⟨?_, ?_, ?_, ?_⟩
  · intro h1 h2
    obtain ⟨k, hk⟩ := Option.isSome_iff_exists.mp h1
    cases hbw : o.braveWeb with
    | thrown => simp [search, hk, braveWebSearch, hbw]
    | httpError s => simp [search, hk, braveWebSearch, hbw]
    | payload d => rw [hbw] at h2; simp [FetchOutcome.isFail] at h2
  · intro h1 h2
    obtain ⟨k, hk⟩ := Option.isSome_iff_exists.mp h1
    cases hbn : o.braveNews with
    | thrown => by_cases hn : options.includeNews = true <;>
        simp [search, hk, hn, braveNewsSearch, hbn]
    | httpError s => by_cases hn : options.includeNews = true <;>
        simp [search, hk, hn, braveNewsSearch, hbn]
    | payload d => rw [hbn] at h2; simp [FetchOutcome.isFail] at h2
  · intro h1 h2
    obtain ⟨k, hk⟩ := Option.isSome_iff_exists.mp h1
    cases hbi : o.braveImages with
    | thrown => by_cases hn : options.includeImages = true <;>
        simp [search, hk, hn, braveImageSearch, hbi]
    | httpError s => by_cases hn : options.includeImages = true <;>
        simp [search, hk, hn, braveImageSearch, hbi]
    | payload d => rw [hbi] at h2; simp [FetchOutcome.isFail] at h2
  · intro h1 h2
    cases hd : o.ddg with
    | thrown => simp [search, h1, duckDuckGoSearch, hd]
    | httpError s => simp [search, h1, duckDuckGoSearch, hd]
    | payload page =>
      rw [hd] at h2
      simp only [ddgFails] at h2
      simp [search, h1, duckDuckGoSearch, hd, h2]

/-- Failing oracle outcomes for every collaborator. -/
def oraclesFail : SearchOracles :=
  { braveWeb := .thrown, braveNews := .thrown, braveImages := .thrown,
    ddg := .thrown, cleanUrlFn := fun u => u }

/-- Witness for C9: the empty query with all collaborators failing still
yields the all-empty response, with no error escaping. -/
theorem c9_search_absorbs_witness :
    search oraclesFail [] {}
      = { web := some [], news := some [], images := some [] } :=
  (c9_search_absorbs oraclesFail [] {}).2.2.2 rfl rfl

end Fireplexity
